import Mathlib

/-! # Redistribution planning in the bike-share front end (`frontend/app.js`)

Shallow embedding of the decision logic of `app.js`: the occupancy colour
(`getColor`), the great-circle distance (`getDistance`), the low / donor
filters, the nearest-donor pipeline `map / sort / slice`, and the two
redistribution passes (`redistributeBikes`, `redistributeSingleStation`)
together with the route toggle of `renderStationList`.

Numbers: JavaScript numbers are modelled by rationals (coordinates, occupancy)
and by integers (`free_bikes`); the trigonometric `getDistance` is stated over
the real numbers.  The sorting pipeline is written for an arbitrary distance
function `gd` with values in a linear order, so every result about it holds in
particular for `getDistance`.
-/

namespace Aradiel

open List

/-! ## Data model -/

/-- Values the field `avg_occupancy` can take when it reaches `getColor`:
JSON `null`, an absent field (`undefined`), or a JavaScript number. -/
inductive Occ where
  | null
  | undefined
  | nan
  | negInf
  | posInf
  | num (x : ℚ)
  deriving DecidableEq

/-- Station record of `/api/stations`, with the fields the planning logic reads. -/
structure Station where
  station_name : String
  lat : ℚ
  lon : ℚ
  free_bikes : ℤ
  deriving DecidableEq

/-- The object `{ ...d, dist: ... }` built by the `map` step: a station with its
distance to the target at hand. -/
structure DonorCandidate (D : Type) where
  station : Station
  dist : D
  deriving DecidableEq

/-! ## `getColor` -/

/-- The test `occ === null`. -/
def Occ.isNull : Occ → Bool
  | .null => true
  | _ => false

/-- The global `isNaN(occ)`: the argument is converted to a number first, so
`undefined` gives `true` and `null` (converted to `0`) gives `false`. -/
def Occ.isNaN : Occ → Bool
  | .undefined => true
  | .nan => true
  | _ => false

/-- The comparison `occ < t` against a finite number `t`: `null` converts to `0`,
`undefined` and `NaN` compare `false`. -/
def Occ.lt (occ : Occ) (t : ℚ) : Bool :=
  match occ with
  | .null => decide ((0 : ℚ) < t)
  | .undefined => false
  | .nan => false
  | .negInf => true
  | .posInf => false
  | .num x => decide (x < t)

/-- Colour of a station marker, `getColor(occ)`.  The literals `0.3`, `0.6`, `0.8` and the
occupancy are numbers of one and the same kind, compared exactly. -/
def getColor (occ : Occ) : String :=
  if occ.isNull || occ.isNaN then "#999"
  else if occ.lt 0.3 then "#2ecc71"
  else if occ.lt 0.6 then "#f1c40f"
  else if occ.lt 0.8 then "#e67e22"
  else "#e74c3c"

/-! ## `getDistance` -/

/-- The two-argument arctangent `Math.atan2(y, x)` over the reals: the angle of the
point `(x, y)`, in `(-π, π]`, and `0` at the origin. -/
noncomputable def atan2 (y x : ℝ) : ℝ :=
  Complex.arg ⟨x, y⟩

/-- Haversine distance in kilometres, `getDistance(lat1, lon1, lat2, lon2)`, over the
real numbers. -/
noncomputable def getDistance (lat1 lon1 lat2 lon2 : ℝ) : ℝ :=
  let R : ℝ := 6371
  let dLat := (lat2 - lat1) * Real.pi / 180
  let dLon := (lon2 - lon1) * Real.pi / 180
  let a := Real.sin (dLat / 2) ^ 2 + Real.cos (lat1 * Real.pi / 180) *
            Real.cos (lat2 * Real.pi / 180) * Real.sin (dLon / 2) ^ 2
  R * 2 * atan2 (Real.sqrt a) (Real.sqrt (1 - a))

/-- The distance function of the program on station coordinates. -/
noncomputable def haversine (lat1 lon1 lat2 lon2 : ℚ) : ℝ :=
  getDistance lat1 lon1 lat2 lon2

/-! ## Filters and the nearest-donor pipeline -/

/-- The filter `stationData.filter(s => s.free_bikes <= 5)`. -/
def lowStations (stationData : List Station) : List Station :=
  stationData.filter (fun s => decide (s.free_bikes ≤ 5))

/-- The filter `stationData.filter(s => s.free_bikes >= 10)`. -/
def donorStations (stationData : List Station) : List Station :=
  stationData.filter (fun s => decide (s.free_bikes ≥ 10))

section Pipeline

variable {D : Type} [LinearOrder D]

/-- The step `d => ({ ...d, dist: getDistance(target.lat, target.lon, d.lat, d.lon) })`. -/
def withDist (gd : ℚ → ℚ → ℚ → ℚ → D) (target d : Station) : DonorCandidate D :=
  ⟨d, gd target.lat target.lon d.lat d.lon⟩

/-- The step `.sort((a, b) => a.dist - b.dist)`: `Array.prototype.sort` is a stable
sort, ascending for this comparator; a stable insertion sort computes the same
array. -/
def sortByDist (l : List (DonorCandidate D)) : List (DonorCandidate D) :=
  l.insertionSort (fun a b => a.dist ≤ b.dist)

/-- The pipeline `.map(d => ({...d, dist})).sort((a, b) => a.dist - b.dist).slice(0, k)`
that `renderLowStations`, `renderStationList`, `redistributeBikes` and
`redistributeSingleStation` each write out, for the target `target`, the candidate
list `cands` and the slice bound `k`. -/
def nearestDonors (gd : ℚ → ℚ → ℚ → ℚ → D) (target : Station) (cands : List Station)
    (k : ℕ) : List (DonorCandidate D) :=
  (sortByDist (cands.map (withDist gd target))).take k

/-- The constant `donors` of `renderStationList` for the station `st`: the filter
also leaves out the stations named like `st`. -/
def renderStationList.donors (gd : ℚ → ℚ → ℚ → ℚ → D) (stationData : List Station)
    (st : Station) : List (DonorCandidate D) :=
  nearestDonors gd st
    (stationData.filter
      (fun d => decide (d.free_bikes ≥ 10) && decide (d.station_name ≠ st.station_name))) 3

/-- The entries `renderStationList` appends to `station-list`: one per station, with
its nearby donors. -/
def renderStationList (gd : ℚ → ℚ → ℚ → ℚ → D) (stationData : List Station) :
    List (Station × List (DonorCandidate D)) :=
  stationData.map (fun st => (st, renderStationList.donors gd stationData st))

/-- The constant `closest` of `redistributeBikes` for the low station `low`. -/
def redistributeBikes.closest (gd : ℚ → ℚ → ℚ → ℚ → D) (stationData : List Station)
    (low : Station) : List (DonorCandidate D) :=
  nearestDonors gd low (donorStations stationData) 1

/-- The constant `donors` of `redistributeSingleStation` for the station `target`. -/
def redistributeSingleStation.donors (gd : ℚ → ℚ → ℚ → ℚ → D) (stationData : List Station)
    (target : Station) : List (DonorCandidate D) :=
  nearestDonors gd target (donorStations stationData) 1

end Pipeline

/-! ## Route estimation and the redistribution passes -/

section Passes

variable {D : Type}

/-- A route as the map layer takes it: a list of `[lat, lon]` points. -/
abbrev Route := List (ℚ × ℚ)

/-- What a call of `POST /api/estimate_route` comes back with: the request or the
parsing of its body fails (`fetch` or `res.json()` rejects), the body carries no
`geometry.coordinates`, or it carries the coordinates as `[lon, lat]` pairs. -/
inductive RouteReply where
  | unreachable
  | noGeometry
  | geometry (coordinates : List (ℚ × ℚ))
  deriving DecidableEq

/-- The function `getRoute(src, dst)`: the coordinates of the reply with both axes
swapped; `none` is the rejected promise (a failed request, or the `TypeError` of
`data.geometry.coordinates.map` on a body without geometry). -/
def getRoute (est : DonorCandidate D → Station → RouteReply) (src : DonorCandidate D)
    (dst : Station) : Option Route :=
  match est src dst with
  | .geometry coordinates => some (coordinates.map (fun p => (p.2, p.1)))
  | .noGeometry => none
  | .unreachable => none

/-- What one pass leaves behind: the `(src, dst)` pairs sent to the route estimator, in
order; the routes drawn and animated (`drawRoute`, `animateBike`), each with the pair
it belongs to; and whether the pass ended in a rejected promise. -/
structure Pass (D : Type) where
  requests : List (DonorCandidate D × Station)
  routes : List (DonorCandidate D × Station × Route)
  failed : Bool

/-- The loop `for (const donor of closest) { const route = await getRoute(donor, low);
drawRoute(route); animateBike(route); }`: a rejected `getRoute` is not caught, so it
ends the loop and the function around it.  The two map effects `drawRoute` and
`animateBike` belong to the map library and are taken to succeed; they are recorded as
one entry of `routes`. -/
def routeLoop (est : DonorCandidate D → Station → RouteReply) (low : Station) :
    List (DonorCandidate D) → Pass D
  | [] => ⟨[], [], false⟩
  | donor :: rest =>
    match getRoute est donor low with
    | none => ⟨[(donor, low)], [], true⟩
    | some route =>
      let p := routeLoop est low rest
      ⟨(donor, low) :: p.requests, (donor, low, route) :: p.routes, p.failed⟩

/-- The loop `for (const low of lowStations) { const closest = ...; for (const donor of
closest) ... }` of `redistributeBikes`, over the low stations still to visit. -/
def redistributeBikes.loop [LinearOrder D] (est : DonorCandidate D → Station → RouteReply)
    (gd : ℚ → ℚ → ℚ → ℚ → D) (stationData : List Station) : List Station → Pass D
  | [] => ⟨[], [], false⟩
  | low :: rest =>
    let p := routeLoop est low (redistributeBikes.closest gd stationData low)
    if p.failed then p
    else
      let q := redistributeBikes.loop est gd stationData rest
      ⟨p.requests ++ q.requests, p.routes ++ q.routes, q.failed⟩

/-- The pass `redistributeBikes()` on the snapshot `stationData` (`clearRoutes()` empties
the routes of the pass before, so `routes` is what the map shows afterwards). -/
def redistributeBikes [LinearOrder D] (est : DonorCandidate D → Station → RouteReply)
    (gd : ℚ → ℚ → ℚ → ℚ → D) (stationData : List Station) : Pass D :=
  redistributeBikes.loop est gd stationData (lowStations stationData)

/-- The pass `redistributeSingleStation(target)` on the snapshot `stationData`. -/
def redistributeSingleStation [LinearOrder D] (est : DonorCandidate D → Station → RouteReply)
    (gd : ℚ → ℚ → ℚ → ℚ → D) (stationData : List Station) (target : Station) : Pass D :=
  routeLoop est target (redistributeSingleStation.donors gd stationData target)

/-- The plan of `redistributeBikes` restricted to one pre-selected low station, as the
specification words the single-target entry point: the loop of `redistributeBikes` run
over `target` alone. -/
def redistributeBikes.restrictedTo [LinearOrder D]
    (est : DonorCandidate D → Station → RouteReply)
    (gd : ℚ → ℚ → ℚ → ℚ → D) (stationData : List Station) (target : Station) : Pass D :=
  redistributeBikes.loop est gd stationData [target]

/-- The showing branch of `btnRutas.onclick` in `renderStationList`: every donor of
the station `st` is sent to the route estimator inside its own `try`/`catch`, and a
route is drawn only when `data.geometry.coordinates` is there. -/
def btnRutas.onclick (est : DonorCandidate D → Station → RouteReply) (st : Station) :
    List (DonorCandidate D) → Pass D
  | [] => ⟨[], [], false⟩
  | donor :: rest =>
    let p := btnRutas.onclick est st rest
    match est donor st with
    | .geometry coordinates =>
      ⟨(donor, st) :: p.requests,
        (donor, st, coordinates.map (fun q => (q.2, q.1))) :: p.routes, p.failed⟩
    | .noGeometry => ⟨(donor, st) :: p.requests, p.routes, p.failed⟩
    | .unreachable => ⟨(donor, st) :: p.requests, p.routes, p.failed⟩

end Passes

/-! ## Concrete snapshots -/

/-- Station Ovalo: low on bikes. -/
def stOvalo : Station := ⟨"Ovalo", -12.12, -77.03, 2⟩

/-- Station Larco: low on bikes. -/
def stLarco : Station := ⟨"Larco", -12.13, -77.03, 3⟩

/-- Station Kennedy: a donor. -/
def stKennedy : Station := ⟨"Kennedy", -12.12, -77.02, 12⟩

/-- A snapshot with two low stations and a single donor. -/
def snapshotTwoLow : List Station := [stOvalo, stLarco, stKennedy]

/-- A route estimator that cannot be reached for the destination Ovalo and answers
with a two-point geometry for every other destination. -/
def estFailsForOvalo (src : DonorCandidate ℝ) (dst : Station) : RouteReply :=
  if dst = stOvalo then .unreachable
  else .geometry [(src.station.lon, src.station.lat), (dst.lon, dst.lat)]

/-- Claim C6: `getColor` gives every occupancy value one of the five tier colours, the
five colours are distinct, `null` and `NaN` (and an absent value) give `#999`, and a
number `x` gives `#2ecc71` for `x < 0.3`, `#f1c40f` for `0.3 ≤ x < 0.6`, `#e67e22` for
`0.6 ≤ x < 0.8` and `#e74c3c` for `0.8 ≤ x`; the boundaries 0.3, 0.6 and 0.8 fall in the
higher tier, and the two infinities in the lowest and the highest tier. -/
theorem getColor_tiers :
    (∀ occ : Occ, getColor occ ∈ ["#999", "#2ecc71", "#f1c40f", "#e67e22", "#e74c3c"]) ∧
    ["#999", "#2ecc71", "#f1c40f", "#e67e22", "#e74c3c"].Nodup ∧
    getColor .null = "#999" ∧ getColor .nan = "#999" ∧ getColor .undefined = "#999" ∧
    (∀ x : ℚ, x < 0.3 → getColor (.num x) = "#2ecc71") ∧
    (∀ x : ℚ, 0.3 ≤ x → x < 0.6 → getColor (.num x) = "#f1c40f") ∧
    (∀ x : ℚ, 0.6 ≤ x → x < 0.8 → getColor (.num x) = "#e67e22") ∧
    (∀ x : ℚ, 0.8 ≤ x → getColor (.num x) = "#e74c3c") ∧
    getColor (.num 0.3) = "#f1c40f" ∧ getColor (.num 0.6) = "#e67e22" ∧
    getColor (.num 0.8) = "#e74c3c" ∧
    getColor .negInf = "#2ecc71" ∧ getColor .posInf = "#e74c3c" := by
  refine ⟨?_, by decide, by simp [getColor, Occ.isNull], by simp [getColor, Occ.isNull, Occ.isNaN],
    by simp [getColor, Occ.isNull, Occ.isNaN], ?_, ?_, ?_, ?_, ?_, ?_, ?_,
    by simp [getColor, Occ.isNull, Occ.isNaN, Occ.lt],
    by simp [getColor, Occ.isNull, Occ.isNaN, Occ.lt]⟩
  · intro occ
    unfold getColor
    split_ifs <;> simp
  · intro x h
    simp [getColor, Occ.isNull, Occ.isNaN, Occ.lt, h]
  · intro x h1 h2
    have h3 : ¬ x < 0.3 := not_lt.mpr h1
    simp [getColor, Occ.isNull, Occ.isNaN, Occ.lt, h3, h2]
  · intro x h1 h2
    have h3 : ¬ x < 0.6 := not_lt.mpr h1
    have h4 : ¬ x < 0.3 := not_lt.mpr (le_trans (by norm_num) h1)
    simp [getColor, Occ.isNull, Occ.isNaN, Occ.lt, h3, h4, h2]
  · intro x h1
    have h3 : ¬ x < 0.8 := not_lt.mpr h1
    have h4 : ¬ x < 0.6 := not_lt.mpr (le_trans (by norm_num) h1)
    have h5 : ¬ x < 0.3 := not_lt.mpr (le_trans (by norm_num) h1)
    simp [getColor, Occ.isNull, Occ.isNaN, Occ.lt, h3, h4, h5]
  · simp [getColor, Occ.isNull, Occ.isNaN, Occ.lt]; norm_num
  · simp [getColor, Occ.isNull, Occ.isNaN, Occ.lt]; norm_num
  · simp [getColor, Occ.isNull, Occ.isNaN, Occ.lt]; norm_num

/-! ## The distance -/

/-- Claim C7: over the real numbers `getDistance` is symmetric in its two points, and
the distance of a point to itself is 0. -/
theorem getDistance_symm_and_self (lat1 lon1 lat2 lon2 : ℝ) :
    getDistance lat1 lon1 lat2 lon2 = getDistance lat2 lon2 lat1 lon1 ∧
    getDistance lat1 lon1 lat1 lon1 = 0 := by
  constructor
  · unfold getDistance
    have e1 : (lat1 - lat2) * Real.pi / 180 / 2 = -((lat2 - lat1) * Real.pi / 180 / 2) := by
      ring
    have e2 : (lon1 - lon2) * Real.pi / 180 / 2 = -((lon2 - lon1) * Real.pi / 180 / 2) := by
      ring
    simp only [e1, e2, Real.sin_neg, neg_sq]
    rw [mul_comm (Real.cos (lat2 * Real.pi / 180)) (Real.cos (lat1 * Real.pi / 180))]
  · unfold getDistance atan2
    have h1 : (⟨1, 0⟩ : ℂ) = 1 := Complex.ext rfl rfl
    simp [h1]

/-- Claim C4: the low list and the donor list are sublists of the snapshot (so they keep
its relative order), the low list holds exactly the stations with `free_bikes ≤ 5`, the
donor list exactly those with `free_bikes ≥ 10`, and no station is in both. -/
theorem lowStations_donorStations_partition (stationData : List Station) :
    lowStations stationData <+ stationData ∧
    donorStations stationData <+ stationData ∧
    (∀ s, s ∈ lowStations stationData ↔ s ∈ stationData ∧ s.free_bikes ≤ 5) ∧
    (∀ s, s ∈ donorStations stationData ↔ s ∈ stationData ∧ s.free_bikes ≥ 10) ∧
    (∀ s, ¬ (s ∈ lowStations stationData ∧ s ∈ donorStations stationData)) := by
  refine ⟨List.filter_sublist _, List.filter_sublist _, ?_, ?_, ?_⟩
  · intro s
    simp [lowStations]
  · intro s
    simp [donorStations]
  · intro s h
    have h1 : s.free_bikes ≤ 5 := by
      have := h.1
      simp [lowStations] at this
      exact this.2
    have h2 : s.free_bikes ≥ 10 := by
      have := h.2
      simp [donorStations] at this
      exact this.2
    omega

/-! ## The nearest-donor pipeline -/

section PipelineFacts

variable {D : Type} [LinearOrder D]

end PipelineFacts

/-! ## The pipeline on the stations east of Ovalo -/

/-- Every pair the inner loop sends to the route estimator is a donor of its list paired
with the low station of the iteration. -/
theorem routeLoop_requests_mem {D : Type} (est : DonorCandidate D → Station → RouteReply)
    (low : Station) :
    ∀ (l : List (DonorCandidate D)) (p : DonorCandidate D × Station),
      p ∈ (routeLoop est low l).requests → p.1 ∈ l ∧ p.2 = low
  | [], p, h => by simp [routeLoop] at h
  | donor :: rest, p, h => by
    cases hr : getRoute est donor low with
    | none =>
      simp only [routeLoop, hr, List.mem_singleton] at h
      subst h
      exact ⟨List.mem_cons_self _ _, rfl⟩
    | some route =>
      simp only [routeLoop, hr, List.mem_cons] at h
      rcases h with h | h
      · subst h
        exact ⟨List.mem_cons_self _ _, rfl⟩
      · have ih := routeLoop_requests_mem est low rest p h
        exact ⟨List.mem_cons_of_mem _ ih.1, ih.2⟩

section PassFacts

variable {D : Type} [LinearOrder D]

/-- One turn of the loop of `redistributeBikes`. -/
theorem redistributeBikes_loop_cons (est : DonorCandidate D → Station → RouteReply)
    (gd : ℚ → ℚ → ℚ → ℚ → D) (stationData : List Station) (low : Station)
    (rest : List Station) :
    redistributeBikes.loop est gd stationData (low :: rest) =
      if (routeLoop est low (redistributeBikes.closest gd stationData low)).failed = true then
        routeLoop est low (redistributeBikes.closest gd stationData low)
      else
        ⟨(routeLoop est low (redistributeBikes.closest gd stationData low)).requests ++
            (redistributeBikes.loop est gd stationData rest).requests,
          (routeLoop est low (redistributeBikes.closest gd stationData low)).routes ++
            (redistributeBikes.loop est gd stationData rest).routes,
          (redistributeBikes.loop est gd stationData rest).failed⟩ := rfl

/-- Every pair `redistributeBikes` sends to the route estimator comes from the iteration
of one of the low stations on its list. -/
theorem redistributeBikes_loop_requests_mem (est : DonorCandidate D → Station → RouteReply)
    (gd : ℚ → ℚ → ℚ → ℚ → D) (stationData : List Station) :
    ∀ (lows : List Station) (p : DonorCandidate D × Station),
      p ∈ (redistributeBikes.loop est gd stationData lows).requests →
      ∃ low ∈ lows,
        p ∈ (routeLoop est low (redistributeBikes.closest gd stationData low)).requests
  | [], p, h => by simp [redistributeBikes.loop] at h
  | low :: rest, p, h => by
    rw [redistributeBikes_loop_cons] at h
    by_cases hf : (routeLoop est low (redistributeBikes.closest gd stationData low)).failed
        = true
    · rw [if_pos hf] at h
      exact ⟨low, List.mem_cons_self _ _, h⟩
    · rw [if_neg hf] at h
      simp only [List.mem_append] at h
      rcases h with h | h
      · exact ⟨low, List.mem_cons_self _ _, h⟩
      · obtain ⟨l2, hl2, hp⟩ := redistributeBikes_loop_requests_mem est gd stationData rest p h
        exact ⟨l2, List.mem_cons_of_mem _ hl2, hp⟩

/-- A pass of `redistributeBikes` that does not fail has sent the pairs of the iteration
of every low station on its list. -/
theorem redistributeBikes_loop_requests_of_not_failed
    (est : DonorCandidate D → Station → RouteReply) (gd : ℚ → ℚ → ℚ → ℚ → D)
    (stationData : List Station) :
    ∀ (lows : List Station),
      (redistributeBikes.loop est gd stationData lows).failed = false →
      ∀ low ∈ lows, ∀ p ∈
        (routeLoop est low (redistributeBikes.closest gd stationData low)).requests,
        p ∈ (redistributeBikes.loop est gd stationData lows).requests
  | [], _, low, hlow, _, _ => by simp at hlow
  | l0 :: rest, hnf, low, hlow, p, hp => by
    rw [redistributeBikes_loop_cons] at hnf ⊢
    by_cases hf : (routeLoop est l0 (redistributeBikes.closest gd stationData l0)).failed
        = true
    · rw [if_pos hf] at hnf
      rw [hf] at hnf
      exact absurd hnf (by simp)
    · rw [if_neg hf] at hnf ⊢
      simp only [List.mem_append] at hnf ⊢
      rcases List.mem_cons.mp hlow with h | h
      · subst h
        exact Or.inl hp
      · exact Or.inr
          (redistributeBikes_loop_requests_of_not_failed est gd stationData rest hnf low h p hp)

/-- The single-target entry point is the plan of `redistributeBikes` restricted to that one
low station; every pair the full pass sends to the route estimator for the target is one
the single-target pass sends; and in a full pass that runs to its end the pairs sent for
the target are exactly the pairs of the single-target pass. -/
theorem redistributeSingleStation_refines (est : DonorCandidate D → Station → RouteReply)
    (gd : ℚ → ℚ → ℚ → ℚ → D) (stationData : List Station) (target : Station)
    (hmem : target ∈ stationData) (hlow : target.free_bikes ≤ 5) :
    redistributeSingleStation est gd stationData target =
      redistributeBikes.restrictedTo est gd stationData target ∧
    (∀ p ∈ (redistributeBikes est gd stationData).requests, p.2 = target →
      p ∈ (redistributeSingleStation est gd stationData target).requests) ∧
    ((redistributeBikes est gd stationData).failed = false →
      ∀ p, p ∈ (redistributeSingleStation est gd stationData target).requests ↔
        (p ∈ (redistributeBikes est gd stationData).requests ∧ p.2 = target)) := by
  have hsame : redistributeSingleStation est gd stationData target =
      routeLoop est target (redistributeBikes.closest gd stationData target) := rfl
  have hback : ∀ p ∈ (redistributeBikes est gd stationData).requests, p.2 = target →
      p ∈ (redistributeSingleStation est gd stationData target).requests := by
    intro p hp htarget
    obtain ⟨low, _, hpl⟩ := redistributeBikes_loop_requests_mem est gd stationData _ p hp
    have := (routeLoop_requests_mem est low _ p hpl).2
    rw [htarget] at this
    subst this
    rw [hsame]
    exact hpl
  refine ⟨?_, hback, ?_⟩
  · rw [hsame]
    unfold redistributeBikes.restrictedTo
    rw [redistributeBikes_loop_cons]
    by_cases hf : (routeLoop est target (redistributeBikes.closest gd stationData target)).failed
        = true
    · rw [if_pos hf]
    · rw [if_neg hf]
      simp only [redistributeBikes.loop, List.append_nil]
      cases hp : routeLoop est target (redistributeBikes.closest gd stationData target) with
      | mk requests routes failed =>
        rw [hp] at hf
        simp only [Pass.mk.injEq, true_and]
        simpa using hf
  · intro hnf p
    constructor
    · intro hp
      have hlm : target ∈ lowStations stationData := by simp [lowStations, hmem, hlow]
      rw [hsame] at hp
      exact ⟨redistributeBikes_loop_requests_of_not_failed est gd stationData _ hnf target hlm
        p hp, (routeLoop_requests_mem est target _ p hp).2⟩
    · intro hp
      exact hback p hp.1 hp.2

/-- The route toggle of `renderStationList` sends every donor of its list to the route
estimator and never fails, whatever the estimator answers. -/
theorem btnRutas_onclick_requests {D : Type} (est : DonorCandidate D → Station → RouteReply)
    (st : Station) :
    ∀ l : List (DonorCandidate D),
      (btnRutas.onclick est st l).failed = false ∧
      (btnRutas.onclick est st l).requests = l.map (fun d => (d, st))
  | [] => by simp [btnRutas.onclick]
  | donor :: rest => by
    obtain ⟨h1, h2⟩ := btnRutas_onclick_requests est st rest
    cases hr : est donor st <;> simp [btnRutas.onclick, hr, h1, h2]

/-- The inner loop fails exactly when one of the estimates it asked for failed. -/
theorem routeLoop_failed_iff {D : Type} (est : DonorCandidate D → Station → RouteReply)
    (low : Station) :
    ∀ l : List (DonorCandidate D),
      (routeLoop est low l).failed = true ↔
        ∃ p ∈ (routeLoop est low l).requests, getRoute est p.1 p.2 = none
  | [] => by simp [routeLoop]
  | donor :: rest => by
    have ih := routeLoop_failed_iff est low rest
    cases hr : getRoute est donor low with
    | none => simp [routeLoop, hr]
    | some route => simp [routeLoop, hr, ih]

/-- A pass of `redistributeBikes` fails exactly when one of the estimates it asked for
failed: no failed estimate is survived. -/
theorem redistributeBikes_failed_iff (est : DonorCandidate D → Station → RouteReply)
    (gd : ℚ → ℚ → ℚ → ℚ → D) (stationData : List Station) :
    ∀ lows : List Station,
      (redistributeBikes.loop est gd stationData lows).failed = true ↔
        ∃ p ∈ (redistributeBikes.loop est gd stationData lows).requests,
          getRoute est p.1 p.2 = none
  | [] => by simp [redistributeBikes.loop]
  | low :: rest => by
    have ih := redistributeBikes_failed_iff est gd stationData rest
    have hin := routeLoop_failed_iff est low (redistributeBikes.closest gd stationData low)
    rw [redistributeBikes_loop_cons]
    by_cases hf : (routeLoop est low (redistributeBikes.closest gd stationData low)).failed
        = true
    · rw [if_pos hf]
      exact hin
    · rw [if_neg hf]
      have hnone : ¬ ∃ p ∈ (routeLoop est low
          (redistributeBikes.closest gd stationData low)).requests,
          getRoute est p.1 p.2 = none := fun h => hf (hin.mpr h)
      simp only [List.mem_append, ih]
      constructor
      · rintro ⟨p, hp, hnp⟩
        exact ⟨p, Or.inr hp, hnp⟩
      · rintro ⟨p, hp | hp, hnp⟩
        · exact absurd ⟨p, hp, hnp⟩ hnone
        · exact ⟨p, hp, hnp⟩

/-- The pass of `redistributeBikes` on the snapshot Ovalo (2 bikes), Larco (3), Kennedy
(12) with an estimator that fails for the destination Ovalo only: one request, for Ovalo,
no route, and a failure. -/
theorem redistributeBikes_snapshotTwoLow :
    lowStations snapshotTwoLow = [stOvalo, stLarco] ∧
    (∀ low, redistributeBikes.closest haversine snapshotTwoLow low =
      [withDist haversine low stKennedy]) ∧
    redistributeBikes estFailsForOvalo haversine snapshotTwoLow =
      ⟨[(withDist haversine stOvalo stKennedy, stOvalo)], [], true⟩ := by
  have hlow : lowStations snapshotTwoLow = [stOvalo, stLarco] := by
    simp [lowStations, snapshotTwoLow, stOvalo, stLarco, stKennedy]
  have hdon : donorStations snapshotTwoLow = [stKennedy] := by
    simp [donorStations, snapshotTwoLow, stOvalo, stLarco, stKennedy]
  have hcl : ∀ low, redistributeBikes.closest haversine snapshotTwoLow low =
      [withDist haversine low stKennedy] := by
    intro low
    simp [redistributeBikes.closest, nearestDonors, sortByDist, hdon]
  have hfail : getRoute estFailsForOvalo (withDist haversine stOvalo stKennedy) stOvalo
      = none := by
    simp [getRoute, estFailsForOvalo]
  refine ⟨hlow, hcl, ?_⟩
  unfold redistributeBikes
  rw [hlow, redistributeBikes_loop_cons, hcl]
  simp [routeLoop, hfail]

/-- Claim C3 on the snapshot Ovalo (2 bikes), Larco (3), Kennedy (12) with an estimator
that fails for the destination Ovalo only: `redistributeBikes` sends the pair
(Kennedy, Ovalo), fails, and never sends the pair (Kennedy, Larco) that its loop would
select next and that the estimator would answer; the route toggle of `renderStationList`
on the same estimator sends its pair and does not fail. -/
theorem redistributeBikes_aborts_on_failed_route :
    lowStations snapshotTwoLow = [stOvalo, stLarco] ∧
    redistributeBikes.closest haversine snapshotTwoLow stLarco =
      [withDist haversine stLarco stKennedy] ∧
    getRoute estFailsForOvalo (withDist haversine stOvalo stKennedy) stOvalo = none ∧
    getRoute estFailsForOvalo (withDist haversine stLarco stKennedy) stLarco ≠ none ∧
    (redistributeBikes estFailsForOvalo haversine snapshotTwoLow).failed = true ∧
    (redistributeBikes estFailsForOvalo haversine snapshotTwoLow).requests =
      [(withDist haversine stOvalo stKennedy, stOvalo)] ∧
    (redistributeBikes estFailsForOvalo haversine snapshotTwoLow).routes = [] ∧
    (withDist haversine stLarco stKennedy, stLarco) ∉
      (redistributeBikes estFailsForOvalo haversine snapshotTwoLow).requests ∧
    (btnRutas.onclick estFailsForOvalo stOvalo
      (renderStationList.donors haversine snapshotTwoLow stOvalo)).failed = false ∧
    (btnRutas.onclick estFailsForOvalo stOvalo
      (renderStationList.donors haversine snapshotTwoLow stOvalo)).requests =
        [(withDist haversine stOvalo stKennedy, stOvalo)] := by
  obtain ⟨hlow, hcl, hrun⟩ := redistributeBikes_snapshotTwoLow
  have hne : stLarco ≠ stOvalo := by
    simp [stLarco, stOvalo]
  have hdon : renderStationList.donors haversine snapshotTwoLow stOvalo =
      [withDist haversine stOvalo stKennedy] := by
    simp [renderStationList.donors, nearestDonors, sortByDist, snapshotTwoLow, stOvalo,
      stLarco, stKennedy]
  refine ⟨hlow, hcl stLarco, ?_, ?_, ?_, ?_, ?_, ?_, ?_, ?_⟩
  · simp [getRoute, estFailsForOvalo]
  · simp [getRoute, estFailsForOvalo, hne]
  · rw [hrun]
  · rw [hrun]
  · rw [hrun]
  · rw [hrun]
    simp [hne]
  · exact (btnRutas_onclick_requests estFailsForOvalo stOvalo _).1
  · rw [(btnRutas_onclick_requests estFailsForOvalo stOvalo _).2, hdon]
    rfl

/-- Claim C9 on the snapshot Ovalo (2 bikes), Larco (3), Kennedy (12) with the target
Larco and an estimator that fails for the destination Ovalo only:
`redistributeSingleStation` sends the pair (Kennedy, Larco), while `redistributeBikes`
fails on its first request, for Ovalo, and sends no pair for Larco. -/
theorem redistributeSingleStation_differs_after_failed_route :
    stLarco ∈ snapshotTwoLow ∧ stLarco.free_bikes ≤ 5 ∧
    (redistributeSingleStation estFailsForOvalo haversine snapshotTwoLow stLarco).requests =
      [(withDist haversine stLarco stKennedy, stLarco)] ∧
    (redistributeBikes estFailsForOvalo haversine snapshotTwoLow).requests =
      [(withDist haversine stOvalo stKennedy, stOvalo)] ∧
    (∀ p ∈ (redistributeBikes estFailsForOvalo haversine snapshotTwoLow).requests,
      p.2 ≠ stLarco) := by
  obtain ⟨_, hcl, hrun⟩ := redistributeBikes_snapshotTwoLow
  have hne : stOvalo ≠ stLarco := by
    simp [stLarco, stOvalo]
  have hcl2 : redistributeSingleStation.donors haversine snapshotTwoLow stLarco =
      [withDist haversine stLarco stKennedy] := hcl stLarco
  have hok : getRoute estFailsForOvalo (withDist haversine stLarco stKennedy) stLarco =
      some [(stKennedy.lat, stKennedy.lon), (stLarco.lat, stLarco.lon)] := by
    simp [getRoute, estFailsForOvalo, hne.symm, withDist]
  refine ⟨by simp [snapshotTwoLow], by simp [stLarco], ?_, ?_, ?_⟩
  · rw [redistributeSingleStation, hcl2]
    simp [routeLoop, hok]
  · rw [hrun]
  · rw [hrun]
    intro p hp
    rw [List.mem_singleton] at hp
    rw [hp]
    exact hne

end PassFacts

end Aradiel
